import Mathlib

/-
Verification of the Update-Load-Balancer workflow of bosh-bootloader
(`commands.UpdateLBs.Execute`), shallowly embedded in Lean 4.

The repository sources available here contain the Ginkgo test suite for
the command (`src/unnamed/part_000`, package `commands_test`); the body of
`Execute` itself is not among them.  The workflow is therefore modelled
from the specification (sections 4.5, 6, 7 and 8 of the design document),
kept faithful to every observable behaviour the test suite pins down:
the configuration handed to each client constructor, the arguments of
each collaborator call, the state returned on success, and the verbatim
propagation of collaborator error messages.

Collaborators are modelled as pure functions returning `Except String`;
the workflow additionally records every collaborator invocation, in
order, in a trace, so that claims about which collaborators run, with
which arguments, become statements about the trace.
-/

namespace UpdateLBs

/-- Field of `storage.State`: AWS credentials and region. -/
structure AWS where
  AccessKeyID : String
  SecretAccessKey : String
  Region : String
  deriving DecidableEq

/-- Field of `storage.State`: the CloudFormation stack name and LB type. -/
structure Stack where
  Name : String
  LBType : String
  deriving DecidableEq

/-- Field of `storage.State`: the EC2 key pair name. -/
structure KeyPair where
  Name : String
  deriving DecidableEq

/-- The persisted deployment state (`storage.State`), with the fields the
workflow reads and writes: credentials/region, stack, key pair, and the
currently active certificate name. -/
structure State where
  AWS : AWS
  Stack : Stack
  KeyPair : KeyPair
  CertificateName : String
  deriving DecidableEq

/-- The client-construction configuration (`aws.Config`): credentials,
region and the endpoint override. -/
structure Config where
  AccessKeyID : String
  SecretAccessKey : String
  Region : String
  EndpointOverride : String
  deriving DecidableEq

/-- Global command-line flags (`commands.GlobalFlags`); the workflow
consumes the endpoint override. -/
structure GlobalFlags where
  EndpointOverride : String
  deriving DecidableEq

/-- A certificate record returned by describe (`iam.Certificate`); the
workflow consumes its provider-assigned reference (ARN). -/
structure Certificate where
  ARN : String
  deriving DecidableEq

/-- Opaque IAM client handle produced by the client provider. -/
structure IAMClient where
  handle : Nat
  deriving DecidableEq

/-- Opaque EC2 client handle produced by the client provider. -/
structure EC2Client where
  handle : Nat
  deriving DecidableEq

/-- Opaque CloudFormation client handle produced by the client provider. -/
structure CloudFormationClient where
  handle : Nat
  deriving DecidableEq

/-- The per-command flag values parsed from the argument list: the two
certificate and private-key file paths given by `--cert` and `--key`. -/
structure UpdateLBConfig where
  certPath : String
  keyPath : String
  deriving DecidableEq

/-- Whether an argument token is a flag, i.e. begins with a dash. -/
def isFlagToken (s : String) : Bool :=
  match s.data with
  | [] => false
  | ch :: _ => ch = '-'

/-- Strip one or two leading dashes from a flag token, as the Go flag
package does when reporting an unknown flag. -/
def stripDashes (s : String) : String :=
  match s.data with
  | '-' :: '-' :: rest => ⟨rest⟩
  | '-' :: rest => ⟨rest⟩
  | l => ⟨l⟩

/-- Modelled from the spec: flag parsing for the `--cert` and `--key`
string flags of the update-lbs command (the command parses its argument
list inside `Execute`, before any workflow step; an argument naming an
undefined flag aborts with the Go flag-package message `flag provided
but not defined: -NAME`).  The parser threads the current values of the
two flags and stops at the first non-flag argument. -/
def parseArgs : List String → String → String → Except String UpdateLBConfig
  | [], cert, key => Except.ok ⟨cert, key⟩
  | arg :: rest, cert, key =>
    if arg = "--cert" ∨ arg = "-cert" then
      match rest with
      | [] => Except.error "flag needs an argument: -cert"
      | v :: rest2 => parseArgs rest2 v key
    else if arg = "--key" ∨ arg = "-key" then
      match rest with
      | [] => Except.error "flag needs an argument: -key"
      | v :: rest2 => parseArgs rest2 cert v
    else if isFlagToken arg then
      Except.error ("flag provided but not defined: -" ++ stripDashes arg)
    else
      Except.ok ⟨cert, key⟩

/-- One collaborator invocation, with the arguments it received. -/
inductive Call where
  | iamClient (config : Config)
  | ec2Client (config : Config)
  | cloudFormationClient (config : Config)
  | retrieve (client : EC2Client) (region : String)
  | createCertificate (client : IAMClient) (certificatePath : String)
      (privateKeyPath : String)
  | describeCertificate (client : IAMClient) (certificateName : String)
  | updateStack (client : CloudFormationClient) (keyPairName : String)
      (numberOfAZs : Nat) (stackName : String) (lbType : String)
      (lbCertificateARN : String)
  | deleteCertificate (client : IAMClient) (certificateName : String)
  deriving DecidableEq

/-- The four collaborator capabilities the workflow sequences: the client
provider (three constructors), the availability zone retriever, the
certificate manager (create / describe / delete) and the infrastructure
manager (update).  Each is a pure function returning `Except String`,
the string being the error message of a failed call. -/
structure Collaborators where
  iamClient : Config → Except String IAMClient
  ec2Client : Config → Except String EC2Client
  cloudFormationClient : Config → Except String CloudFormationClient
  retrieve : EC2Client → String → Except String (List String)
  createCertificate : IAMClient → String → String → Except String String
  describeCertificate : IAMClient → String → Except String Certificate
  updateStack : CloudFormationClient → String → Nat → String → String →
      String → Except String Unit
  deleteCertificate : IAMClient → String → Except String Unit

/-- The outcome of the collaborator call recorded by a trace entry:
`some e` when that call fails with message `e`, `none` when it succeeds. -/
def callError (c : Collaborators) : Call → Option String
  | .iamClient config =>
    match c.iamClient config with
    | .error e => some e
    | .ok _ => none
  | .ec2Client config =>
    match c.ec2Client config with
    | .error e => some e
    | .ok _ => none
  | .cloudFormationClient config =>
    match c.cloudFormationClient config with
    | .error e => some e
    | .ok _ => none
  | .retrieve client region =>
    match c.retrieve client region with
    | .error e => some e
    | .ok _ => none
  | .createCertificate client cp kp =>
    match c.createCertificate client cp kp with
    | .error e => some e
    | .ok _ => none
  | .describeCertificate client nm =>
    match c.describeCertificate client nm with
    | .error e => some e
    | .ok _ => none
  | .updateStack client kp zc sn lt arn =>
    match c.updateStack client kp zc sn lt arn with
    | .error e => some e
    | .ok _ => none
  | .deleteCertificate client nm =>
    match c.deleteCertificate client nm with
    | .error e => some e
    | .ok _ => none

/-- The result of one run of `Execute`: the returned state, the returned
error (none on success), and the ordered trace of collaborator calls. -/
structure ExecResult where
  state : State
  error : Option String
  trace : List Call
  deriving DecidableEq

/-- The client configuration the workflow builds: the credentials and
region taken from the state together with the endpoint override from the
global flags. -/
def awsConfig (flags : GlobalFlags) (state : State) : Config :=
  { AccessKeyID := state.AWS.AccessKeyID
    SecretAccessKey := state.AWS.SecretAccessKey
    Region := state.AWS.Region
    EndpointOverride := flags.EndpointOverride }

/-- Modelled from the spec: the `Execute` method of `commands.UpdateLBs`
(its body is not among the available sources; only its test suite is).
It parses the argument list; builds the IAM, EC2 and CloudFormation
clients from one shared configuration, failing fast on the first
construction error; retrieves the availability zones for the region in
the state; creates the new certificate from the `--cert` and `--key`
paths; describes it to resolve the provider reference (ARN); updates the
stack with the key pair name, the zone count, the stack name, the LB
type and that ARN; deletes the certificate named by the input state when
that name is non-empty; and finally returns the input state with its
certificate name replaced by the newly created one.  Any failing step
aborts immediately, returning the input state unchanged together with
the failing call's message verbatim. -/
def execute (flags : GlobalFlags) (args : List String) (state : State)
    (c : Collaborators) : ExecResult :=
  match parseArgs args "" "" with
  | .error e => ⟨state, some e, []⟩
  | .ok cfg =>
    match c.iamClient (awsConfig flags state) with
    | .error e => ⟨state, some e, [.iamClient (awsConfig flags state)]⟩
    | .ok iam =>
      match c.ec2Client (awsConfig flags state) with
      | .error e => ⟨state, some e,
          [.iamClient (awsConfig flags state),
           .ec2Client (awsConfig flags state)]⟩
      | .ok ec2 =>
        match c.cloudFormationClient (awsConfig flags state) with
        | .error e => ⟨state, some e,
            [.iamClient (awsConfig flags state),
             .ec2Client (awsConfig flags state),
             .cloudFormationClient (awsConfig flags state)]⟩
        | .ok cf =>
          match c.retrieve ec2 state.AWS.Region with
          | .error e => ⟨state, some e,
              [.iamClient (awsConfig flags state),
               .ec2Client (awsConfig flags state),
               .cloudFormationClient (awsConfig flags state),
               .retrieve ec2 state.AWS.Region]⟩
          | .ok azs =>
            match c.createCertificate iam cfg.certPath cfg.keyPath with
            | .error e => ⟨state, some e,
                [.iamClient (awsConfig flags state),
                 .ec2Client (awsConfig flags state),
                 .cloudFormationClient (awsConfig flags state),
                 .retrieve ec2 state.AWS.Region,
                 .createCertificate iam cfg.certPath cfg.keyPath]⟩
            | .ok certificateName =>
              match c.describeCertificate iam certificateName with
              | .error e => ⟨state, some e,
                  [.iamClient (awsConfig flags state),
                   .ec2Client (awsConfig flags state),
                   .cloudFormationClient (awsConfig flags state),
                   .retrieve ec2 state.AWS.Region,
                   .createCertificate iam cfg.certPath cfg.keyPath,
                   .describeCertificate iam certificateName]⟩
              | .ok certificate =>
                match c.updateStack cf state.KeyPair.Name azs.length
                    state.Stack.Name state.Stack.LBType certificate.ARN with
                | .error e => ⟨state, some e,
                    [.iamClient (awsConfig flags state),
                     .ec2Client (awsConfig flags state),
                     .cloudFormationClient (awsConfig flags state),
                     .retrieve ec2 state.AWS.Region,
                     .createCertificate iam cfg.certPath cfg.keyPath,
                     .describeCertificate iam certificateName,
                     .updateStack cf state.KeyPair.Name azs.length
                       state.Stack.Name state.Stack.LBType certificate.ARN]⟩
                | .ok _ =>
                  if state.CertificateName = "" then
                    ⟨{ state with CertificateName := certificateName }, none,
                      [.iamClient (awsConfig flags state),
                       .ec2Client (awsConfig flags state),
                       .cloudFormationClient (awsConfig flags state),
                       .retrieve ec2 state.AWS.Region,
                       .createCertificate iam cfg.certPath cfg.keyPath,
                       .describeCertificate iam certificateName,
                       .updateStack cf state.KeyPair.Name azs.length
                         state.Stack.Name state.Stack.LBType certificate.ARN]⟩
                  else
                    match c.deleteCertificate iam state.CertificateName with
                    | .error e => ⟨state, some e,
                        [.iamClient (awsConfig flags state),
                         .ec2Client (awsConfig flags state),
                         .cloudFormationClient (awsConfig flags state),
                         .retrieve ec2 state.AWS.Region,
                         .createCertificate iam cfg.certPath cfg.keyPath,
                         .describeCertificate iam certificateName,
                         .updateStack cf state.KeyPair.Name azs.length
                           state.Stack.Name state.Stack.LBType certificate.ARN,
                         .deleteCertificate iam state.CertificateName]⟩
                    | .ok _ =>
                      ⟨{ state with CertificateName := certificateName }, none,
                        [.iamClient (awsConfig flags state),
                         .ec2Client (awsConfig flags state),
                         .cloudFormationClient (awsConfig flags state),
                         .retrieve ec2 state.AWS.Region,
                         .createCertificate iam cfg.certPath cfg.keyPath,
                         .describeCertificate iam certificateName,
                         .updateStack cf state.KeyPair.Name azs.length
                           state.Stack.Name state.Stack.LBType certificate.ARN,
                         .deleteCertificate iam state.CertificateName]⟩

/-- Exhaustive case analysis of one run of `execute`: either flag parsing
fails, or exactly one collaborator call fails after all earlier ones
succeeded, or the whole run succeeds (with the delete step skipped when
the input state holds no certificate name).  Each case records the
collaborator results and the full result of the run. -/
lemma execute_cases (flags : GlobalFlags) (args : List String) (state : State)
    (c : Collaborators) :
    (∃ e, parseArgs args "" "" = Except.error e ∧
        execute flags args state c = ⟨state, some e, []⟩) ∨
    (∃ cfg e, parseArgs args "" "" = Except.ok cfg ∧
        c.iamClient (awsConfig flags state) = Except.error e ∧
        execute flags args state c =
          ⟨state, some e, [.iamClient (awsConfig flags state)]⟩) ∨
    (∃ cfg iam e, parseArgs args "" "" = Except.ok cfg ∧
        c.iamClient (awsConfig flags state) = Except.ok iam ∧
        c.ec2Client (awsConfig flags state) = Except.error e ∧
        execute flags args state c =
          ⟨state, some e, [.iamClient (awsConfig flags state),
            .ec2Client (awsConfig flags state)]⟩) ∨
    (∃ cfg iam ec2 e, parseArgs args "" "" = Except.ok cfg ∧
        c.iamClient (awsConfig flags state) = Except.ok iam ∧
        c.ec2Client (awsConfig flags state) = Except.ok ec2 ∧
        c.cloudFormationClient (awsConfig flags state) = Except.error e ∧
        execute flags args state c =
          ⟨state, some e, [.iamClient (awsConfig flags state),
            .ec2Client (awsConfig flags state),
            .cloudFormationClient (awsConfig flags state)]⟩) ∨
    (∃ cfg iam ec2 cf e, parseArgs args "" "" = Except.ok cfg ∧
        c.iamClient (awsConfig flags state) = Except.ok iam ∧
        c.ec2Client (awsConfig flags state) = Except.ok ec2 ∧
        c.cloudFormationClient (awsConfig flags state) = Except.ok cf ∧
        c.retrieve ec2 state.AWS.Region = Except.error e ∧
        execute flags args state c =
          ⟨state, some e, [.iamClient (awsConfig flags state),
            .ec2Client (awsConfig flags state),
            .cloudFormationClient (awsConfig flags state),
            .retrieve ec2 state.AWS.Region]⟩) ∨
    (∃ cfg iam ec2 cf azs e, parseArgs args "" "" = Except.ok cfg ∧
        c.iamClient (awsConfig flags state) = Except.ok iam ∧
        c.ec2Client (awsConfig flags state) = Except.ok ec2 ∧
        c.cloudFormationClient (awsConfig flags state) = Except.ok cf ∧
        c.retrieve ec2 state.AWS.Region = Except.ok azs ∧
        c.createCertificate iam cfg.certPath cfg.keyPath = Except.error e ∧
        execute flags args state c =
          ⟨state, some e, [.iamClient (awsConfig flags state),
            .ec2Client (awsConfig flags state),
            .cloudFormationClient (awsConfig flags state),
            .retrieve ec2 state.AWS.Region,
            .createCertificate iam cfg.certPath cfg.keyPath]⟩) ∨
    (∃ cfg iam ec2 cf azs nm e, parseArgs args "" "" = Except.ok cfg ∧
        c.iamClient (awsConfig flags state) = Except.ok iam ∧
        c.ec2Client (awsConfig flags state) = Except.ok ec2 ∧
        c.cloudFormationClient (awsConfig flags state) = Except.ok cf ∧
        c.retrieve ec2 state.AWS.Region = Except.ok azs ∧
        c.createCertificate iam cfg.certPath cfg.keyPath = Except.ok nm ∧
        c.describeCertificate iam nm = Except.error e ∧
        execute flags args state c =
          ⟨state, some e, [.iamClient (awsConfig flags state),
            .ec2Client (awsConfig flags state),
            .cloudFormationClient (awsConfig flags state),
            .retrieve ec2 state.AWS.Region,
            .createCertificate iam cfg.certPath cfg.keyPath,
            .describeCertificate iam nm]⟩) ∨
    (∃ cfg iam ec2 cf azs nm cert e, parseArgs args "" "" = Except.ok cfg ∧
        c.iamClient (awsConfig flags state) = Except.ok iam ∧
        c.ec2Client (awsConfig flags state) = Except.ok ec2 ∧
        c.cloudFormationClient (awsConfig flags state) = Except.ok cf ∧
        c.retrieve ec2 state.AWS.Region = Except.ok azs ∧
        c.createCertificate iam cfg.certPath cfg.keyPath = Except.ok nm ∧
        c.describeCertificate iam nm = Except.ok cert ∧
        c.updateStack cf state.KeyPair.Name azs.length state.Stack.Name
          state.Stack.LBType cert.ARN = Except.error e ∧
        execute flags args state c =
          ⟨state, some e, [.iamClient (awsConfig flags state),
            .ec2Client (awsConfig flags state),
            .cloudFormationClient (awsConfig flags state),
            .retrieve ec2 state.AWS.Region,
            .createCertificate iam cfg.certPath cfg.keyPath,
            .describeCertificate iam nm,
            .updateStack cf state.KeyPair.Name azs.length state.Stack.Name
              state.Stack.LBType cert.ARN]⟩) ∨
    (∃ cfg iam ec2 cf azs nm cert, parseArgs args "" "" = Except.ok cfg ∧
        c.iamClient (awsConfig flags state) = Except.ok iam ∧
        c.ec2Client (awsConfig flags state) = Except.ok ec2 ∧
        c.cloudFormationClient (awsConfig flags state) = Except.ok cf ∧
        c.retrieve ec2 state.AWS.Region = Except.ok azs ∧
        c.createCertificate iam cfg.certPath cfg.keyPath = Except.ok nm ∧
        c.describeCertificate iam nm = Except.ok cert ∧
        c.updateStack cf state.KeyPair.Name azs.length state.Stack.Name
          state.Stack.LBType cert.ARN = Except.ok () ∧
        state.CertificateName = "" ∧
        execute flags args state c =
          ⟨{ state with CertificateName := nm }, none,
            [.iamClient (awsConfig flags state),
             .ec2Client (awsConfig flags state),
             .cloudFormationClient (awsConfig flags state),
             .retrieve ec2 state.AWS.Region,
             .createCertificate iam cfg.certPath cfg.keyPath,
             .describeCertificate iam nm,
             .updateStack cf state.KeyPair.Name azs.length state.Stack.Name
               state.Stack.LBType cert.ARN]⟩) ∨
    (∃ cfg iam ec2 cf azs nm cert e, parseArgs args "" "" = Except.ok cfg ∧
        c.iamClient (awsConfig flags state) = Except.ok iam ∧
        c.ec2Client (awsConfig flags state) = Except.ok ec2 ∧
        c.cloudFormationClient (awsConfig flags state) = Except.ok cf ∧
        c.retrieve ec2 state.AWS.Region = Except.ok azs ∧
        c.createCertificate iam cfg.certPath cfg.keyPath = Except.ok nm ∧
        c.describeCertificate iam nm = Except.ok cert ∧
        c.updateStack cf state.KeyPair.Name azs.length state.Stack.Name
          state.Stack.LBType cert.ARN = Except.ok () ∧
        state.CertificateName ≠ "" ∧
        c.deleteCertificate iam state.CertificateName = Except.error e ∧
        execute flags args state c =
          ⟨state, some e,
            [.iamClient (awsConfig flags state),
             .ec2Client (awsConfig flags state),
             .cloudFormationClient (awsConfig flags state),
             .retrieve ec2 state.AWS.Region,
             .createCertificate iam cfg.certPath cfg.keyPath,
             .describeCertificate iam nm,
             .updateStack cf state.KeyPair.Name azs.length state.Stack.Name
               state.Stack.LBType cert.ARN,
             .deleteCertificate iam state.CertificateName]⟩) ∨
    (∃ cfg iam ec2 cf azs nm cert, parseArgs args "" "" = Except.ok cfg ∧
        c.iamClient (awsConfig flags state) = Except.ok iam ∧
        c.ec2Client (awsConfig flags state) = Except.ok ec2 ∧
        c.cloudFormationClient (awsConfig flags state) = Except.ok cf ∧
        c.retrieve ec2 state.AWS.Region = Except.ok azs ∧
        c.createCertificate iam cfg.certPath cfg.keyPath = Except.ok nm ∧
        c.describeCertificate iam nm = Except.ok cert ∧
        c.updateStack cf state.KeyPair.Name azs.length state.Stack.Name
          state.Stack.LBType cert.ARN = Except.ok () ∧
        state.CertificateName ≠ "" ∧
        c.deleteCertificate iam state.CertificateName = Except.ok () ∧
        execute flags args state c =
          ⟨{ state with CertificateName := nm }, none,
            [.iamClient (awsConfig flags state),
             .ec2Client (awsConfig flags state),
             .cloudFormationClient (awsConfig flags state),
             .retrieve ec2 state.AWS.Region,
             .createCertificate iam cfg.certPath cfg.keyPath,
             .describeCertificate iam nm,
             .updateStack cf state.KeyPair.Name azs.length state.Stack.Name
               state.Stack.LBType cert.ARN,
             .deleteCertificate iam state.CertificateName]⟩) := by
  rcases hp : parseArgs args "" "" with e | cfg
  · exact Or.inl ⟨e, rfl, by simp only [execute, hp]⟩
  rcases h1 : c.iamClient (awsConfig flags state) with e | iam
  · exact Or.inr (Or.inl ⟨cfg, e, rfl, rfl, by simp only [execute, hp, h1]⟩)
  rcases h2 : c.ec2Client (awsConfig flags state) with e | ec2
  · exact Or.inr (Or.inr (Or.inl ⟨cfg, iam, e, rfl, rfl, rfl,
      by simp only [execute, hp, h1, h2]⟩))
  rcases h3 : c.cloudFormationClient (awsConfig flags state) with e | cf
  · exact Or.inr (Or.inr (Or.inr (Or.inl ⟨cfg, iam, ec2, e, rfl, rfl, rfl,
      rfl, by simp only [execute, hp, h1, h2, h3]⟩)))
  rcases h4 : c.retrieve ec2 state.AWS.Region with e | azs
  · exact Or.inr (Or.inr (Or.inr (Or.inr (Or.inl ⟨cfg, iam, ec2, cf, e,
      rfl, rfl, rfl, rfl, h4, by simp only [execute, hp, h1, h2, h3, h4]⟩))))
  rcases h5 : c.createCertificate iam cfg.certPath cfg.keyPath with e | nm
  · exact Or.inr (Or.inr (Or.inr (Or.inr (Or.inr (Or.inl ⟨cfg, iam, ec2, cf,
      azs, e, rfl, rfl, rfl, rfl, h4, h5,
      by simp only [execute, hp, h1, h2, h3, h4, h5]⟩)))))
  rcases h6 : c.describeCertificate iam nm with e | cert
  · exact Or.inr (Or.inr (Or.inr (Or.inr (Or.inr (Or.inr (Or.inl ⟨cfg, iam,
      ec2, cf, azs, nm, e, rfl, rfl, rfl, rfl, h4, h5, h6,
      by simp only [execute, hp, h1, h2, h3, h4, h5, h6]⟩))))))
  rcases h7 : c.updateStack cf state.KeyPair.Name azs.length state.Stack.Name
      state.Stack.LBType cert.ARN with e | u
  · exact Or.inr (Or.inr (Or.inr (Or.inr (Or.inr (Or.inr (Or.inr (Or.inl
      ⟨cfg, iam, ec2, cf, azs, nm, cert, e, rfl, rfl, rfl, rfl, h4, h5, h6,
      h7, by simp only [execute, hp, h1, h2, h3, h4, h5, h6, h7]⟩)))))))
  by_cases h8 : state.CertificateName = ""
  · exact Or.inr (Or.inr (Or.inr (Or.inr (Or.inr (Or.inr (Or.inr (Or.inr
      (Or.inl ⟨cfg, iam, ec2, cf, azs, nm, cert, rfl, rfl, rfl, rfl, h4, h5,
      h6, h7, h8,
      by simp only [execute, hp, h1, h2, h3, h4, h5, h6, h7]; rw [if_pos h8]⟩))))))))
  rcases h9 : c.deleteCertificate iam state.CertificateName with e | d
  · exact Or.inr (Or.inr (Or.inr (Or.inr (Or.inr (Or.inr (Or.inr (Or.inr
      (Or.inr (Or.inl ⟨cfg, iam, ec2, cf, azs, nm, cert, e, rfl, rfl, rfl,
      rfl, h4, h5, h6, h7, h8, h9,
      by simp only [execute, hp, h1, h2, h3, h4, h5, h6, h7];
         rw [if_neg h8, h9]⟩)))))))))
  · exact Or.inr (Or.inr (Or.inr (Or.inr (Or.inr (Or.inr (Or.inr (Or.inr
      (Or.inr (Or.inr ⟨cfg, iam, ec2, cf, azs, nm, cert, rfl, rfl, rfl,
      rfl, h4, h5, h6, h7, h8, h9,
      by simp only [execute, hp, h1, h2, h3, h4, h5, h6, h7];
         rw [if_neg h8, h9]⟩)))))))))

/-- The deployment state used by the test suite scenarios, with a
non-empty active certificate name. -/
def exampleState : State :=
  { AWS := { AccessKeyID := "some-access-key-id"
             SecretAccessKey := "some-secret-access-key"
             Region := "some-region" }
    Stack := { Name := "some-stack", LBType := "some-lb-type" }
    KeyPair := { Name := "some-key-pair" }
    CertificateName := "old-name" }

/-- The global flags used by the test suite scenarios. -/
def exampleFlags : GlobalFlags := { EndpointOverride := "some-endpoint" }

/-- The argument list the test suite passes to `Execute`. -/
def exampleArgs : List String :=
  ["--cert", "some-cert.crt", "--key", "some-key.key"]

/-- Collaborators for a fully successful run, mirroring the fake
collaborators of the test suite. -/
def happyCollaborators : Collaborators :=
  { iamClient := fun _ => Except.ok ⟨1⟩
    ec2Client := fun _ => Except.ok ⟨2⟩
    cloudFormationClient := fun _ => Except.ok ⟨3⟩
    retrieve := fun _ _ => Except.ok ["a", "b", "c"]
    createCertificate := fun _ _ _ => Except.ok "new-name"
    describeCertificate := fun _ _ => Except.ok ⟨"new-ref"⟩
    updateStack := fun _ _ _ _ _ _ => Except.ok ()
    deleteCertificate := fun _ _ => Except.ok () }

/-- Collaborators whose availability zone retrieval fails, mirroring the
corresponding failure test. -/
def azFailingCollaborators : Collaborators :=
  { happyCollaborators with
      retrieve := fun _ _ => Except.error "az retrieve failed" }

/-- C1: on every successful run of `Execute` (nil error), the returned
state has its certificate name set to the name returned by the
certificate manager create call of that run, and every other field of
the returned state equals the corresponding field of the input state. -/
theorem execute_success_updates_only_certificateName
    (flags : GlobalFlags) (args : List String) (state : State)
    (c : Collaborators)
    (h : (execute flags args state c).error = none) :
    ∃ cfg iam nm,
      parseArgs args "" "" = Except.ok cfg ∧
      Call.createCertificate iam cfg.certPath cfg.keyPath ∈
        (execute flags args state c).trace ∧
      c.createCertificate iam cfg.certPath cfg.keyPath = Except.ok nm ∧
      (execute flags args state c).state =
        { state with CertificateName := nm } := by
  rcases execute_cases flags args state c with
    ⟨e', hp, hr⟩ |
    ⟨cfg, e', hp, h1, hr⟩ |
    ⟨cfg, iam, e', hp, h1, h2, hr⟩ |
    ⟨cfg, iam, ec2, e', hp, h1, h2, h3, hr⟩ |
    ⟨cfg, iam, ec2, cf, e', hp, h1, h2, h3, h4, hr⟩ |
    ⟨cfg, iam, ec2, cf, azs, e', hp, h1, h2, h3, h4, h5, hr⟩ |
    ⟨cfg, iam, ec2, cf, azs, nm, e', hp, h1, h2, h3, h4, h5, h6, hr⟩ |
    ⟨cfg, iam, ec2, cf, azs, nm, cert, e', hp, h1, h2, h3, h4, h5, h6, h7,
      hr⟩ |
    ⟨cfg, iam, ec2, cf, azs, nm, cert, hp, h1, h2, h3, h4, h5, h6, h7, h8,
      hr⟩ |
    ⟨cfg, iam, ec2, cf, azs, nm, cert, e', hp, h1, h2, h3, h4, h5, h6, h7,
      h8, h9, hr⟩ |
    ⟨cfg, iam, ec2, cf, azs, nm, cert, hp, h1, h2, h3, h4, h5, h6, h7, h8,
      h9, hr⟩
  · rw [hr] at h; exact Option.noConfusion h
  · rw [hr] at h; exact Option.noConfusion h
  · rw [hr] at h; exact Option.noConfusion h
  · rw [hr] at h; exact Option.noConfusion h
  · rw [hr] at h; exact Option.noConfusion h
  · rw [hr] at h; exact Option.noConfusion h
  · rw [hr] at h; exact Option.noConfusion h
  · rw [hr] at h; exact Option.noConfusion h
  · rw [hr]; exact ⟨cfg, iam, nm, hp, by simp, h5, rfl⟩
  · rw [hr] at h; exact Option.noConfusion h
  · rw [hr]; exact ⟨cfg, iam, nm, hp, by simp, h5, rfl⟩

/-- Witness for C1: the happy-path scenario of the test suite, where
create returns the name new-name and the returned state carries it. -/
theorem execute_success_updates_only_certificateName_witness :
    (execute exampleFlags exampleArgs exampleState
        happyCollaborators).error = none ∧
    ∃ cfg iam nm,
      parseArgs exampleArgs "" "" = Except.ok cfg ∧
      Call.createCertificate iam cfg.certPath cfg.keyPath ∈
        (execute exampleFlags exampleArgs exampleState
          happyCollaborators).trace ∧
      happyCollaborators.createCertificate iam cfg.certPath cfg.keyPath =
        Except.ok nm ∧
      (execute exampleFlags exampleArgs exampleState
          happyCollaborators).state =
        { exampleState with CertificateName := nm } :=
  ⟨by decide, execute_success_updates_only_certificateName exampleFlags
    exampleArgs exampleState happyCollaborators (by decide)⟩

/-- C2: whenever a collaborator call fails (the run got past flag
parsing and returned an error), `Execute` returns the input state with
no field changed, and the returned error message is verbatim the
message of the failing collaborator call, namely the last call of the
trace. -/
theorem execute_collaborator_error_preserves_state_and_message
    (flags : GlobalFlags) (args : List String) (state : State)
    (c : Collaborators) (e : String)
    (h : (execute flags args state c).error = some e)
    (hargs : ∃ cfg, parseArgs args "" "" = Except.ok cfg) :
    (execute flags args state c).state = state ∧
    ∃ pre last, (execute flags args state c).trace = pre ++ [last] ∧
      callError c last = some e := by
  rcases execute_cases flags args state c with
    ⟨e', hp, hr⟩ |
    ⟨cfg, e', hp, h1, hr⟩ |
    ⟨cfg, iam, e', hp, h1, h2, hr⟩ |
    ⟨cfg, iam, ec2, e', hp, h1, h2, h3, hr⟩ |
    ⟨cfg, iam, ec2, cf, e', hp, h1, h2, h3, h4, hr⟩ |
    ⟨cfg, iam, ec2, cf, azs, e', hp, h1, h2, h3, h4, h5, hr⟩ |
    ⟨cfg, iam, ec2, cf, azs, nm, e', hp, h1, h2, h3, h4, h5, h6, hr⟩ |
    ⟨cfg, iam, ec2, cf, azs, nm, cert, e', hp, h1, h2, h3, h4, h5, h6, h7,
      hr⟩ |
    ⟨cfg, iam, ec2, cf, azs, nm, cert, hp, h1, h2, h3, h4, h5, h6, h7, h8,
      hr⟩ |
    ⟨cfg, iam, ec2, cf, azs, nm, cert, e', hp, h1, h2, h3, h4, h5, h6, h7,
      h8, h9, hr⟩ |
    ⟨cfg, iam, ec2, cf, azs, nm, cert, hp, h1, h2, h3, h4, h5, h6, h7, h8,
      h9, hr⟩
  · obtain ⟨cfg0, hc⟩ := hargs
    simp [hp] at hc
  · rw [hr] at h ⊢
    obtain rfl : e' = e := Option.some.inj h
    exact ⟨rfl, [], .iamClient (awsConfig flags state), rfl,
      by simp [callError, h1]⟩
  · rw [hr] at h ⊢
    obtain rfl : e' = e := Option.some.inj h
    exact ⟨rfl, [.iamClient (awsConfig flags state)],
      .ec2Client (awsConfig flags state), rfl, by simp [callError, h2]⟩
  · rw [hr] at h ⊢
    obtain rfl : e' = e := Option.some.inj h
    exact ⟨rfl, [.iamClient (awsConfig flags state),
      .ec2Client (awsConfig flags state)],
      .cloudFormationClient (awsConfig flags state), rfl,
      by simp [callError, h3]⟩
  · rw [hr] at h ⊢
    obtain rfl : e' = e := Option.some.inj h
    exact ⟨rfl, [.iamClient (awsConfig flags state),
      .ec2Client (awsConfig flags state),
      .cloudFormationClient (awsConfig flags state)],
      .retrieve ec2 state.AWS.Region, rfl, by simp [callError, h4]⟩
  · rw [hr] at h ⊢
    obtain rfl : e' = e := Option.some.inj h
    exact ⟨rfl, [.iamClient (awsConfig flags state),
      .ec2Client (awsConfig flags state),
      .cloudFormationClient (awsConfig flags state),
      .retrieve ec2 state.AWS.Region],
      .createCertificate iam cfg.certPath cfg.keyPath, rfl,
      by simp [callError, h5]⟩
  · rw [hr] at h ⊢
    obtain rfl : e' = e := Option.some.inj h
    exact ⟨rfl, [.iamClient (awsConfig flags state),
      .ec2Client (awsConfig flags state),
      .cloudFormationClient (awsConfig flags state),
      .retrieve ec2 state.AWS.Region,
      .createCertificate iam cfg.certPath cfg.keyPath],
      .describeCertificate iam nm, rfl, by simp [callError, h6]⟩
  · rw [hr] at h ⊢
    obtain rfl : e' = e := Option.some.inj h
    exact ⟨rfl, [.iamClient (awsConfig flags state),
      .ec2Client (awsConfig flags state),
      .cloudFormationClient (awsConfig flags state),
      .retrieve ec2 state.AWS.Region,
      .createCertificate iam cfg.certPath cfg.keyPath,
      .describeCertificate iam nm],
      .updateStack cf state.KeyPair.Name azs.length state.Stack.Name
        state.Stack.LBType cert.ARN, rfl, by simp [callError, h7]⟩
  · rw [hr] at h; exact Option.noConfusion h
  · rw [hr] at h ⊢
    obtain rfl : e' = e := Option.some.inj h
    exact ⟨rfl, [.iamClient (awsConfig flags state),
      .ec2Client (awsConfig flags state),
      .cloudFormationClient (awsConfig flags state),
      .retrieve ec2 state.AWS.Region,
      .createCertificate iam cfg.certPath cfg.keyPath,
      .describeCertificate iam nm,
      .updateStack cf state.KeyPair.Name azs.length state.Stack.Name
        state.Stack.LBType cert.ARN],
      .deleteCertificate iam state.CertificateName, rfl,
      by simp [callError, h9]⟩
  · rw [hr] at h; exact Option.noConfusion h

/-- Witness for C2: the failing availability zone retrieval scenario of
the test suite, whose message az retrieve failed is propagated verbatim
while the state is returned unchanged. -/
theorem execute_collaborator_error_preserves_state_and_message_witness :
    ((execute exampleFlags exampleArgs exampleState
        azFailingCollaborators).error = some "az retrieve failed" ∧
      (∃ cfg, parseArgs exampleArgs "" "" = Except.ok cfg)) ∧
    ((execute exampleFlags exampleArgs exampleState
        azFailingCollaborators).state = exampleState ∧
      ∃ pre last,
        (execute exampleFlags exampleArgs exampleState
            azFailingCollaborators).trace = pre ++ [last] ∧
        callError azFailingCollaborators last = some "az retrieve failed") :=
  ⟨⟨by decide, ⟨⟨"some-cert.crt", "some-key.key"⟩, by rfl⟩⟩,
    execute_collaborator_error_preserves_state_and_message exampleFlags
      exampleArgs exampleState azFailingCollaborators "az retrieve failed"
      (by decide) ⟨⟨"some-cert.crt", "some-key.key"⟩, by rfl⟩⟩

/-- C3: every client construction call of a run receives the same
configuration, built from the AccessKeyID, SecretAccessKey and Region of
the input state together with the configured endpoint override; and a
successful run performs all three constructions with exactly that
configuration. -/
theorem execute_client_configs_identical
    (flags : GlobalFlags) (args : List String) (state : State)
    (c : Collaborators) :
    (∀ x, Call.iamClient x ∈ (execute flags args state c).trace →
        x = awsConfig flags state) ∧
    (∀ x, Call.ec2Client x ∈ (execute flags args state c).trace →
        x = awsConfig flags state) ∧
    (∀ x, Call.cloudFormationClient x ∈ (execute flags args state c).trace →
        x = awsConfig flags state) ∧
    ((execute flags args state c).error = none →
      Call.iamClient (awsConfig flags state) ∈
          (execute flags args state c).trace ∧
        Call.ec2Client (awsConfig flags state) ∈
          (execute flags args state c).trace ∧
        Call.cloudFormationClient (awsConfig flags state) ∈
          (execute flags args state c).trace) := by
  rcases execute_cases flags args state c with
    ⟨e', hp, hr⟩ |
    ⟨cfg, e', hp, h1, hr⟩ |
    ⟨cfg, iam, e', hp, h1, h2, hr⟩ |
    ⟨cfg, iam, ec2, e', hp, h1, h2, h3, hr⟩ |
    ⟨cfg, iam, ec2, cf, e', hp, h1, h2, h3, h4, hr⟩ |
    ⟨cfg, iam, ec2, cf, azs, e', hp, h1, h2, h3, h4, h5, hr⟩ |
    ⟨cfg, iam, ec2, cf, azs, nm, e', hp, h1, h2, h3, h4, h5, h6, hr⟩ |
    ⟨cfg, iam, ec2, cf, azs, nm, cert, e', hp, h1, h2, h3, h4, h5, h6, h7,
      hr⟩ |
    ⟨cfg, iam, ec2, cf, azs, nm, cert, hp, h1, h2, h3, h4, h5, h6, h7, h8,
      hr⟩ |
    ⟨cfg, iam, ec2, cf, azs, nm, cert, e', hp, h1, h2, h3, h4, h5, h6, h7,
      h8, h9, hr⟩ |
    ⟨cfg, iam, ec2, cf, azs, nm, cert, hp, h1, h2, h3, h4, h5, h6, h7, h8,
      h9, hr⟩ <;>
  · rw [hr]
    refine ⟨fun x hx => ?_, fun x hx => ?_, fun x hx => ?_, fun he => ?_⟩ <;>
      simp_all

/-- Witness for C3: the happy-path run succeeds and performs all three
client constructions with the shared configuration. -/
theorem execute_client_configs_identical_witness :
    (execute exampleFlags exampleArgs exampleState
        happyCollaborators).error = none ∧
    (Call.iamClient (awsConfig exampleFlags exampleState) ∈
        (execute exampleFlags exampleArgs exampleState
          happyCollaborators).trace ∧
      Call.ec2Client (awsConfig exampleFlags exampleState) ∈
        (execute exampleFlags exampleArgs exampleState
          happyCollaborators).trace ∧
      Call.cloudFormationClient (awsConfig exampleFlags exampleState) ∈
        (execute exampleFlags exampleArgs exampleState
          happyCollaborators).trace) :=
  ⟨by decide, (execute_client_configs_identical exampleFlags exampleArgs
    exampleState happyCollaborators).2.2.2 (by decide)⟩

/-- C4: the zone count handed to the infrastructure update equals the
cardinality of the zone list obtained from the availability zone
retriever in the same run. -/
theorem execute_update_zone_count_is_zone_cardinality
    (flags : GlobalFlags) (args : List String) (state : State)
    (c : Collaborators) (cf : CloudFormationClient) (kp : String) (n : Nat)
    (sn lt arn : String)
    (h : Call.updateStack cf kp n sn lt arn ∈
      (execute flags args state c).trace) :
    ∃ ec2 azs,
      Call.retrieve ec2 state.AWS.Region ∈
        (execute flags args state c).trace ∧
      c.retrieve ec2 state.AWS.Region = Except.ok azs ∧
      n = azs.length := by
  rcases execute_cases flags args state c with
    ⟨e', hp, hr⟩ |
    ⟨cfg, e', hp, h1, hr⟩ |
    ⟨cfg, iam, e', hp, h1, h2, hr⟩ |
    ⟨cfg, iam, ec2, e', hp, h1, h2, h3, hr⟩ |
    ⟨cfg, iam, ec2, cf0, e', hp, h1, h2, h3, h4, hr⟩ |
    ⟨cfg, iam, ec2, cf0, azs, e', hp, h1, h2, h3, h4, h5, hr⟩ |
    ⟨cfg, iam, ec2, cf0, azs, nm, e', hp, h1, h2, h3, h4, h5, h6, hr⟩ |
    ⟨cfg, iam, ec2, cf0, azs, nm, cert, e', hp, h1, h2, h3, h4, h5, h6, h7,
      hr⟩ |
    ⟨cfg, iam, ec2, cf0, azs, nm, cert, hp, h1, h2, h3, h4, h5, h6, h7, h8,
      hr⟩ |
    ⟨cfg, iam, ec2, cf0, azs, nm, cert, e', hp, h1, h2, h3, h4, h5, h6, h7,
      h8, h9, hr⟩ |
    ⟨cfg, iam, ec2, cf0, azs, nm, cert, hp, h1, h2, h3, h4, h5, h6, h7, h8,
      h9, hr⟩
  · simp [hr] at h
  · simp [hr] at h
  · simp [hr] at h
  · simp [hr] at h
  · simp [hr] at h
  · simp [hr] at h
  · simp [hr] at h
  · rw [hr] at h ⊢
    simp at h
    obtain ⟨rfl, rfl, rfl, rfl, rfl, rfl⟩ := h
    exact ⟨ec2, azs, by simp, h4, rfl⟩
  · rw [hr] at h ⊢
    simp at h
    obtain ⟨rfl, rfl, rfl, rfl, rfl, rfl⟩ := h
    exact ⟨ec2, azs, by simp, h4, rfl⟩
  · rw [hr] at h ⊢
    simp at h
    obtain ⟨rfl, rfl, rfl, rfl, rfl, rfl⟩ := h
    exact ⟨ec2, azs, by simp, h4, rfl⟩
  · rw [hr] at h ⊢
    simp at h
    obtain ⟨rfl, rfl, rfl, rfl, rfl, rfl⟩ := h
    exact ⟨ec2, azs, by simp, h4, rfl⟩

/-- Witness for C4: the test scenario where the retriever returns the
three zones a, b, c and the update receives zone count 3. -/
theorem execute_update_zone_count_is_zone_cardinality_witness :
    (Call.updateStack ⟨3⟩ "some-key-pair" 3 "some-stack" "some-lb-type"
        "new-ref" ∈
      (execute exampleFlags exampleArgs exampleState
        happyCollaborators).trace) ∧
    ∃ ec2 azs,
      Call.retrieve ec2 exampleState.AWS.Region ∈
        (execute exampleFlags exampleArgs exampleState
          happyCollaborators).trace ∧
      happyCollaborators.retrieve ec2 exampleState.AWS.Region =
        Except.ok azs ∧
      3 = azs.length :=
  ⟨by decide, execute_update_zone_count_is_zone_cardinality exampleFlags
    exampleArgs exampleState happyCollaborators ⟨3⟩ "some-key-pair" 3
    "some-stack" "some-lb-type" "new-ref" (by decide)⟩

/-- C5: the certificate argument of the infrastructure update is the ARN
of the certificate record returned by the describe call of the same run;
in particular, whenever that ARN differs from the name returned by
create, the update argument differs from the created name. -/
theorem execute_update_receives_describe_reference
    (flags : GlobalFlags) (args : List String) (state : State)
    (c : Collaborators) (cf : CloudFormationClient) (kp : String) (n : Nat)
    (sn lt arn : String)
    (h : Call.updateStack cf kp n sn lt arn ∈
      (execute flags args state c).trace) :
    ∃ iam cp kp2 nm cert,
      Call.createCertificate iam cp kp2 ∈ (execute flags args state c).trace ∧
      c.createCertificate iam cp kp2 = Except.ok nm ∧
      Call.describeCertificate iam nm ∈ (execute flags args state c).trace ∧
      c.describeCertificate iam nm = Except.ok cert ∧
      arn = cert.ARN ∧
      (cert.ARN ≠ nm → arn ≠ nm) := by
  rcases execute_cases flags args state c with
    ⟨e', hp, hr⟩ |
    ⟨cfg, e', hp, h1, hr⟩ |
    ⟨cfg, iam, e', hp, h1, h2, hr⟩ |
    ⟨cfg, iam, ec2, e', hp, h1, h2, h3, hr⟩ |
    ⟨cfg, iam, ec2, cf0, e', hp, h1, h2, h3, h4, hr⟩ |
    ⟨cfg, iam, ec2, cf0, azs, e', hp, h1, h2, h3, h4, h5, hr⟩ |
    ⟨cfg, iam, ec2, cf0, azs, nm, e', hp, h1, h2, h3, h4, h5, h6, hr⟩ |
    ⟨cfg, iam, ec2, cf0, azs, nm, cert, e', hp, h1, h2, h3, h4, h5, h6, h7,
      hr⟩ |
    ⟨cfg, iam, ec2, cf0, azs, nm, cert, hp, h1, h2, h3, h4, h5, h6, h7, h8,
      hr⟩ |
    ⟨cfg, iam, ec2, cf0, azs, nm, cert, e', hp, h1, h2, h3, h4, h5, h6, h7,
      h8, h9, hr⟩ |
    ⟨cfg, iam, ec2, cf0, azs, nm, cert, hp, h1, h2, h3, h4, h5, h6, h7, h8,
      h9, hr⟩
  · simp [hr] at h
  · simp [hr] at h
  · simp [hr] at h
  · simp [hr] at h
  · simp [hr] at h
  · simp [hr] at h
  · simp [hr] at h
  · rw [hr] at h ⊢
    simp at h
    obtain ⟨rfl, rfl, rfl, rfl, rfl, rfl⟩ := h
    exact ⟨iam, cfg.certPath, cfg.keyPath, nm, cert, by simp, h5, by simp,
      h6, rfl, fun hne => hne⟩
  · rw [hr] at h ⊢
    simp at h
    obtain ⟨rfl, rfl, rfl, rfl, rfl, rfl⟩ := h
    exact ⟨iam, cfg.certPath, cfg.keyPath, nm, cert, by simp, h5, by simp,
      h6, rfl, fun hne => hne⟩
  · rw [hr] at h ⊢
    simp at h
    obtain ⟨rfl, rfl, rfl, rfl, rfl, rfl⟩ := h
    exact ⟨iam, cfg.certPath, cfg.keyPath, nm, cert, by simp, h5, by simp,
      h6, rfl, fun hne => hne⟩
  · rw [hr] at h ⊢
    simp at h
    obtain ⟨rfl, rfl, rfl, rfl, rfl, rfl⟩ := h
    exact ⟨iam, cfg.certPath, cfg.keyPath, nm, cert, by simp, h5, by simp,
      h6, rfl, fun hne => hne⟩

/-- Witness for C5: the happy-path scenario, where the update receives
the reference new-ref resolved by describe, distinct from the created
name new-name. -/
theorem execute_update_receives_describe_reference_witness :
    (Call.updateStack ⟨3⟩ "some-key-pair" 3 "some-stack" "some-lb-type"
        "new-ref" ∈
      (execute exampleFlags exampleArgs exampleState
        happyCollaborators).trace) ∧
    ∃ iam cp kp2 nm cert,
      Call.createCertificate iam cp kp2 ∈
        (execute exampleFlags exampleArgs exampleState
          happyCollaborators).trace ∧
      happyCollaborators.createCertificate iam cp kp2 = Except.ok nm ∧
      Call.describeCertificate iam nm ∈
        (execute exampleFlags exampleArgs exampleState
          happyCollaborators).trace ∧
      happyCollaborators.describeCertificate iam nm = Except.ok cert ∧
      "new-ref" = cert.ARN ∧
      (cert.ARN ≠ nm → "new-ref" ≠ nm) :=
  ⟨by decide, execute_update_receives_describe_reference exampleFlags
    exampleArgs exampleState happyCollaborators ⟨3⟩ "some-key-pair" 3
    "some-stack" "some-lb-type" "new-ref" (by decide)⟩

/-- C6: every delete call of a run receives exactly the certificate name
of the input state, which is then non-empty, happens only in a run whose
infrastructure update succeeded, and differs from the newly created name
whenever that name differs from the input one; and when the input state
carries an empty certificate name no delete call happens at all. -/
theorem execute_delete_only_old_nonempty_after_update
    (flags : GlobalFlags) (args : List String) (state : State)
    (c : Collaborators) :
    (∀ iam nm, Call.deleteCertificate iam nm ∈
        (execute flags args state c).trace →
      nm = state.CertificateName ∧
      state.CertificateName ≠ "" ∧
      (∃ cf kp zc sn lt arn,
        Call.updateStack cf kp zc sn lt arn ∈
          (execute flags args state c).trace ∧
        c.updateStack cf kp zc sn lt arn = Except.ok ()) ∧
      (∃ cp kp2 newNm, c.createCertificate iam cp kp2 = Except.ok newNm ∧
        (newNm ≠ state.CertificateName → nm ≠ newNm))) ∧
    (state.CertificateName = "" →
      ∀ iam nm, Call.deleteCertificate iam nm ∉
        (execute flags args state c).trace) := by
  rcases execute_cases flags args state c with
    ⟨e', hp, hr⟩ |
    ⟨cfg, e', hp, h1, hr⟩ |
    ⟨cfg, iam, e', hp, h1, h2, hr⟩ |
    ⟨cfg, iam, ec2, e', hp, h1, h2, h3, hr⟩ |
    ⟨cfg, iam, ec2, cf, e', hp, h1, h2, h3, h4, hr⟩ |
    ⟨cfg, iam, ec2, cf, azs, e', hp, h1, h2, h3, h4, h5, hr⟩ |
    ⟨cfg, iam, ec2, cf, azs, nm, e', hp, h1, h2, h3, h4, h5, h6, hr⟩ |
    ⟨cfg, iam, ec2, cf, azs, nm, cert, e', hp, h1, h2, h3, h4, h5, h6, h7,
      hr⟩ |
    ⟨cfg, iam, ec2, cf, azs, nm, cert, hp, h1, h2, h3, h4, h5, h6, h7, h8,
      hr⟩ |
    ⟨cfg, iam, ec2, cf, azs, nm, cert, e', hp, h1, h2, h3, h4, h5, h6, h7,
      h8, h9, hr⟩ |
    ⟨cfg, iam, ec2, cf, azs, nm, cert, hp, h1, h2, h3, h4, h5, h6, h7, h8,
      h9, hr⟩
  · exact ⟨fun i x hx => by simp [hr] at hx, fun h0 i x hx => by
      simp [hr] at hx⟩
  · exact ⟨fun i x hx => by simp [hr] at hx, fun h0 i x hx => by
      simp [hr] at hx⟩
  · exact ⟨fun i x hx => by simp [hr] at hx, fun h0 i x hx => by
      simp [hr] at hx⟩
  · exact ⟨fun i x hx => by simp [hr] at hx, fun h0 i x hx => by
      simp [hr] at hx⟩
  · exact ⟨fun i x hx => by simp [hr] at hx, fun h0 i x hx => by
      simp [hr] at hx⟩
  · exact ⟨fun i x hx => by simp [hr] at hx, fun h0 i x hx => by
      simp [hr] at hx⟩
  · exact ⟨fun i x hx => by simp [hr] at hx, fun h0 i x hx => by
      simp [hr] at hx⟩
  · exact ⟨fun i x hx => by simp [hr] at hx, fun h0 i x hx => by
      simp [hr] at hx⟩
  · exact ⟨fun i x hx => by simp [hr] at hx, fun h0 i x hx => by
      simp [hr] at hx⟩
  · refine ⟨fun i x hx => ?_, fun h0 => absurd h0 h8⟩
    rw [hr] at hx
    simp at hx
    obtain ⟨rfl, rfl⟩ := hx
    exact ⟨rfl, h8,
      ⟨cf, state.KeyPair.Name, azs.length, state.Stack.Name,
        state.Stack.LBType, cert.ARN, by simp [hr], h7⟩,
      ⟨cfg.certPath, cfg.keyPath, nm, h5, fun hne => hne.symm⟩⟩
  · refine ⟨fun i x hx => ?_, fun h0 => absurd h0 h8⟩
    rw [hr] at hx
    simp at hx
    obtain ⟨rfl, rfl⟩ := hx
    exact ⟨rfl, h8,
      ⟨cf, state.KeyPair.Name, azs.length, state.Stack.Name,
        state.Stack.LBType, cert.ARN, by simp [hr], h7⟩,
      ⟨cfg.certPath, cfg.keyPath, nm, h5, fun hne => hne.symm⟩⟩

/-- Witness for C6: the happy-path run deletes exactly the old input
certificate name old-name, after a successful update, and the created
name new-name differs from it. -/
theorem execute_delete_only_old_nonempty_after_update_witness :
    (Call.deleteCertificate ⟨1⟩ "old-name" ∈
      (execute exampleFlags exampleArgs exampleState
        happyCollaborators).trace) ∧
    ("old-name" = exampleState.CertificateName ∧
      exampleState.CertificateName ≠ "" ∧
      (∃ cf kp zc sn lt arn,
        Call.updateStack cf kp zc sn lt arn ∈
          (execute exampleFlags exampleArgs exampleState
            happyCollaborators).trace ∧
        happyCollaborators.updateStack cf kp zc sn lt arn = Except.ok ()) ∧
      (∃ cp kp2 newNm,
        happyCollaborators.createCertificate ⟨1⟩ cp kp2 = Except.ok newNm ∧
        (newNm ≠ exampleState.CertificateName → "old-name" ≠ newNm))) :=
  ⟨by decide, (execute_delete_only_old_nonempty_after_update exampleFlags
    exampleArgs exampleState happyCollaborators).1 ⟨1⟩ "old-name"
    (by decide)⟩

/-- C7: when the availability zone retrieval of a run fails, the run
returns that error message verbatim, returns the input state unchanged,
and performs no certificate create, describe, infrastructure update or
certificate delete call. -/
theorem execute_retrieve_failure_stops_workflow
    (flags : GlobalFlags) (args : List String) (state : State)
    (c : Collaborators) (ec2c : EC2Client) (r e : String)
    (hmem : Call.retrieve ec2c r ∈ (execute flags args state c).trace)
    (hfail : c.retrieve ec2c r = Except.error e) :
    (execute flags args state c).error = some e ∧
    (execute flags args state c).state = state ∧
    (∀ iam cp kp, Call.createCertificate iam cp kp ∉
      (execute flags args state c).trace) ∧
    (∀ iam nm, Call.describeCertificate iam nm ∉
      (execute flags args state c).trace) ∧
    (∀ cf kp zc sn lt arn, Call.updateStack cf kp zc sn lt arn ∉
      (execute flags args state c).trace) ∧
    (∀ iam nm, Call.deleteCertificate iam nm ∉
      (execute flags args state c).trace) := by
  rcases execute_cases flags args state c with
    ⟨e', hp, hr⟩ |
    ⟨cfg, e', hp, h1, hr⟩ |
    ⟨cfg, iam, e', hp, h1, h2, hr⟩ |
    ⟨cfg, iam, ec2, e', hp, h1, h2, h3, hr⟩ |
    ⟨cfg, iam, ec2, cf, e', hp, h1, h2, h3, h4, hr⟩ |
    ⟨cfg, iam, ec2, cf, azs, e', hp, h1, h2, h3, h4, h5, hr⟩ |
    ⟨cfg, iam, ec2, cf, azs, nm, e', hp, h1, h2, h3, h4, h5, h6, hr⟩ |
    ⟨cfg, iam, ec2, cf, azs, nm, cert, e', hp, h1, h2, h3, h4, h5, h6, h7,
      hr⟩ |
    ⟨cfg, iam, ec2, cf, azs, nm, cert, hp, h1, h2, h3, h4, h5, h6, h7, h8,
      hr⟩ |
    ⟨cfg, iam, ec2, cf, azs, nm, cert, e', hp, h1, h2, h3, h4, h5, h6, h7,
      h8, h9, hr⟩ |
    ⟨cfg, iam, ec2, cf, azs, nm, cert, hp, h1, h2, h3, h4, h5, h6, h7, h8,
      h9, hr⟩
  · simp [hr] at hmem
  · simp [hr] at hmem
  · simp [hr] at hmem
  · simp [hr] at hmem
  · rw [hr] at hmem ⊢
    simp at hmem
    obtain ⟨rfl, rfl⟩ := hmem
    rw [hfail] at h4
    obtain rfl : e' = e := (Except.error.inj h4).symm
    refine ⟨rfl, rfl, fun i cp kp => ?_, fun i nm => ?_,
      fun cf kp zc sn lt arn => ?_, fun i nm => ?_⟩ <;> simp
  · rw [hr] at hmem
    simp at hmem
    obtain ⟨rfl, rfl⟩ := hmem
    rw [hfail] at h4
    exact Except.noConfusion h4
  · rw [hr] at hmem
    simp at hmem
    obtain ⟨rfl, rfl⟩ := hmem
    rw [hfail] at h4
    exact Except.noConfusion h4
  · rw [hr] at hmem
    simp at hmem
    obtain ⟨rfl, rfl⟩ := hmem
    rw [hfail] at h4
    exact Except.noConfusion h4
  · rw [hr] at hmem
    simp at hmem
    obtain ⟨rfl, rfl⟩ := hmem
    rw [hfail] at h4
    exact Except.noConfusion h4
  · rw [hr] at hmem
    simp at hmem
    obtain ⟨rfl, rfl⟩ := hmem
    rw [hfail] at h4
    exact Except.noConfusion h4
  · rw [hr] at hmem
    simp at hmem
    obtain ⟨rfl, rfl⟩ := hmem
    rw [hfail] at h4
    exact Except.noConfusion h4

/-- Witness for C7: the failing availability zone retrieval scenario of
the test suite, with the message az retrieve failed. -/
theorem execute_retrieve_failure_stops_workflow_witness :
    ((Call.retrieve ⟨2⟩ "some-region" ∈
        (execute exampleFlags exampleArgs exampleState
          azFailingCollaborators).trace) ∧
      azFailingCollaborators.retrieve ⟨2⟩ "some-region" =
        Except.error "az retrieve failed") ∧
    ((execute exampleFlags exampleArgs exampleState
        azFailingCollaborators).error = some "az retrieve failed" ∧
      (execute exampleFlags exampleArgs exampleState
        azFailingCollaborators).state = exampleState ∧
      (∀ iam cp kp, Call.createCertificate iam cp kp ∉
        (execute exampleFlags exampleArgs exampleState
          azFailingCollaborators).trace) ∧
      (∀ iam nm, Call.describeCertificate iam nm ∉
        (execute exampleFlags exampleArgs exampleState
          azFailingCollaborators).trace) ∧
      (∀ cf kp zc sn lt arn, Call.updateStack cf kp zc sn lt arn ∉
        (execute exampleFlags exampleArgs exampleState
          azFailingCollaborators).trace) ∧
      (∀ iam nm, Call.deleteCertificate iam nm ∉
        (execute exampleFlags exampleArgs exampleState
          azFailingCollaborators).trace)) :=
  ⟨⟨by decide, by rfl⟩,
    execute_retrieve_failure_stops_workflow exampleFlags exampleArgs
      exampleState azFailingCollaborators ⟨2⟩ "some-region"
      "az retrieve failed" (by decide) (by rfl)⟩

/-- C8: every describe call of a run receives exactly the certificate
name returned by the create call of the same run, on the same IAM
client handle as that create call. -/
theorem execute_describe_receives_created_name
    (flags : GlobalFlags) (args : List String) (state : State)
    (c : Collaborators) (iamc : IAMClient) (nm2 : String)
    (h : Call.describeCertificate iamc nm2 ∈
      (execute flags args state c).trace) :
    ∃ cp kp, Call.createCertificate iamc cp kp ∈
        (execute flags args state c).trace ∧
      c.createCertificate iamc cp kp = Except.ok nm2 := by
  rcases execute_cases flags args state c with
    ⟨e', hp, hr⟩ |
    ⟨cfg, e', hp, h1, hr⟩ |
    ⟨cfg, iam, e', hp, h1, h2, hr⟩ |
    ⟨cfg, iam, ec2, e', hp, h1, h2, h3, hr⟩ |
    ⟨cfg, iam, ec2, cf, e', hp, h1, h2, h3, h4, hr⟩ |
    ⟨cfg, iam, ec2, cf, azs, e', hp, h1, h2, h3, h4, h5, hr⟩ |
    ⟨cfg, iam, ec2, cf, azs, nm, e', hp, h1, h2, h3, h4, h5, h6, hr⟩ |
    ⟨cfg, iam, ec2, cf, azs, nm, cert, e', hp, h1, h2, h3, h4, h5, h6, h7,
      hr⟩ |
    ⟨cfg, iam, ec2, cf, azs, nm, cert, hp, h1, h2, h3, h4, h5, h6, h7, h8,
      hr⟩ |
    ⟨cfg, iam, ec2, cf, azs, nm, cert, e', hp, h1, h2, h3, h4, h5, h6, h7,
      h8, h9, hr⟩ |
    ⟨cfg, iam, ec2, cf, azs, nm, cert, hp, h1, h2, h3, h4, h5, h6, h7, h8,
      h9, hr⟩
  · simp [hr] at h
  · simp [hr] at h
  · simp [hr] at h
  · simp [hr] at h
  · simp [hr] at h
  · simp [hr] at h
  · rw [hr] at h ⊢
    simp at h
    obtain ⟨rfl, rfl⟩ := h
    exact ⟨cfg.certPath, cfg.keyPath, by simp, h5⟩
  · rw [hr] at h ⊢
    simp at h
    obtain ⟨rfl, rfl⟩ := h
    exact ⟨cfg.certPath, cfg.keyPath, by simp, h5⟩
  · rw [hr] at h ⊢
    simp at h
    obtain ⟨rfl, rfl⟩ := h
    exact ⟨cfg.certPath, cfg.keyPath, by simp, h5⟩
  · rw [hr] at h ⊢
    simp at h
    obtain ⟨rfl, rfl⟩ := h
    exact ⟨cfg.certPath, cfg.keyPath, by simp, h5⟩
  · rw [hr] at h ⊢
    simp at h
    obtain ⟨rfl, rfl⟩ := h
    exact ⟨cfg.certPath, cfg.keyPath, by simp, h5⟩

/-- Witness for C8: the happy-path run describes exactly the created
name new-name on the IAM client returned by the provider. -/
theorem execute_describe_receives_created_name_witness :
    (Call.describeCertificate ⟨1⟩ "new-name" ∈
      (execute exampleFlags exampleArgs exampleState
        happyCollaborators).trace) ∧
    ∃ cp kp, Call.createCertificate ⟨1⟩ cp kp ∈
        (execute exampleFlags exampleArgs exampleState
          happyCollaborators).trace ∧
      happyCollaborators.createCertificate ⟨1⟩ cp kp =
        Except.ok "new-name" :=
  ⟨by decide, execute_describe_receives_created_name exampleFlags
    exampleArgs exampleState happyCollaborators ⟨1⟩ "new-name" (by decide)⟩

/-- C9: an argument list carrying the undefined flag --invalid-flag
makes `Execute` return an error whose message carries the Go flag
package text flag provided but not defined, with the input state
returned unchanged and no collaborator invoked: flag parsing happens
inside `Execute` before any workflow step. -/
theorem execute_invalid_flag_aborts_before_collaborators
    (flags : GlobalFlags) (state : State) (c : Collaborators) :
    execute flags ["--invalid-flag"] state c =
      ⟨state, some "flag provided but not defined: -invalid-flag", []⟩ := by
  have hp : parseArgs ["--invalid-flag"] "" "" =
      Except.error "flag provided but not defined: -invalid-flag" := by rfl
  simp only [execute, hp]

/-- C10: every certificate create call of a run receives verbatim the
path strings given by the --cert and --key flags of the argument list,
together with the IAM client handle constructed by the client provider
in the same run. -/
theorem execute_create_receives_flag_paths_and_iam_client
    (flags : GlobalFlags) (args : List String) (state : State)
    (c : Collaborators) (iamc : IAMClient) (cp kp : String)
    (h : Call.createCertificate iamc cp kp ∈
      (execute flags args state c).trace) :
    ∃ cfg, parseArgs args "" "" = Except.ok cfg ∧
      cp = cfg.certPath ∧ kp = cfg.keyPath ∧
      c.iamClient (awsConfig flags state) = Except.ok iamc ∧
      Call.iamClient (awsConfig flags state) ∈
        (execute flags args state c).trace := by
  rcases execute_cases flags args state c with
    ⟨e', hp, hr⟩ |
    ⟨cfg, e', hp, h1, hr⟩ |
    ⟨cfg, iam, e', hp, h1, h2, hr⟩ |
    ⟨cfg, iam, ec2, e', hp, h1, h2, h3, hr⟩ |
    ⟨cfg, iam, ec2, cf, e', hp, h1, h2, h3, h4, hr⟩ |
    ⟨cfg, iam, ec2, cf, azs, e', hp, h1, h2, h3, h4, h5, hr⟩ |
    ⟨cfg, iam, ec2, cf, azs, nm, e', hp, h1, h2, h3, h4, h5, h6, hr⟩ |
    ⟨cfg, iam, ec2, cf, azs, nm, cert, e', hp, h1, h2, h3, h4, h5, h6, h7,
      hr⟩ |
    ⟨cfg, iam, ec2, cf, azs, nm, cert, hp, h1, h2, h3, h4, h5, h6, h7, h8,
      hr⟩ |
    ⟨cfg, iam, ec2, cf, azs, nm, cert, e', hp, h1, h2, h3, h4, h5, h6, h7,
      h8, h9, hr⟩ |
    ⟨cfg, iam, ec2, cf, azs, nm, cert, hp, h1, h2, h3, h4, h5, h6, h7, h8,
      h9, hr⟩
  · simp [hr] at h
  · simp [hr] at h
  · simp [hr] at h
  · simp [hr] at h
  · simp [hr] at h
  · rw [hr] at h ⊢
    simp at h
    obtain ⟨rfl, rfl, rfl⟩ := h
    exact ⟨cfg, hp, rfl, rfl, h1, by simp⟩
  · rw [hr] at h ⊢
    simp at h
    obtain ⟨rfl, rfl, rfl⟩ := h
    exact ⟨cfg, hp, rfl, rfl, h1, by simp⟩
  · rw [hr] at h ⊢
    simp at h
    obtain ⟨rfl, rfl, rfl⟩ := h
    exact ⟨cfg, hp, rfl, rfl, h1, by simp⟩
  · rw [hr] at h ⊢
    simp at h
    obtain ⟨rfl, rfl, rfl⟩ := h
    exact ⟨cfg, hp, rfl, rfl, h1, by simp⟩
  · rw [hr] at h ⊢
    simp at h
    obtain ⟨rfl, rfl, rfl⟩ := h
    exact ⟨cfg, hp, rfl, rfl, h1, by simp⟩
  · rw [hr] at h ⊢
    simp at h
    obtain ⟨rfl, rfl, rfl⟩ := h
    exact ⟨cfg, hp, rfl, rfl, h1, by simp⟩

/-- Witness for C10: the test scenario where create receives the path
strings some-cert.crt and some-key.key together with the IAM client of
the run. -/
theorem execute_create_receives_flag_paths_and_iam_client_witness :
    (Call.createCertificate ⟨1⟩ "some-cert.crt" "some-key.key" ∈
      (execute exampleFlags exampleArgs exampleState
        happyCollaborators).trace) ∧
    ∃ cfg, parseArgs exampleArgs "" "" = Except.ok cfg ∧
      "some-cert.crt" = cfg.certPath ∧ "some-key.key" = cfg.keyPath ∧
      happyCollaborators.iamClient
        (awsConfig exampleFlags exampleState) = Except.ok ⟨1⟩ ∧
      Call.iamClient (awsConfig exampleFlags exampleState) ∈
        (execute exampleFlags exampleArgs exampleState
          happyCollaborators).trace :=
  ⟨by decide, execute_create_receives_flag_paths_and_iam_client
    exampleFlags exampleArgs exampleState happyCollaborators ⟨1⟩
    "some-cert.crt" "some-key.key" (by decide)⟩

end UpdateLBs
